import Mathlib

/-!
Shallow embedding of `token/cli/src/config.rs` from the solana-program-library
repository: the `Config` resolution-and-validation layer of the token CLI
(address/signer resolvers, mint-info service, token-account validator,
associated-token-address derivation).

Modelling conventions:
- `Pubkey` is modelled as `Nat`; `Pubkey::default()` (the all-zero address)
  is `0`.
- External collaborators (the RPC client's `get_account`, the key-resolution
  services `pubkey_from_path` / `signer_from_path_with_config`, and the
  account-decoding primitives `StateWithExtensionsOwned::unpack` for `Mint`
  and `Account`) are fields of an `Env` record, universally quantified in the
  theorems.  A function whose result holds for every `Env` performs no
  identity-source or network access in the corresponding Rust path.
- `clap::ArgMatches` is modelled by its two lookups used here:
  `pubkey_of_signer` (which the Rust code calls with `.unwrap()`, so we model
  the already-unwrapped `Option<Pubkey>`) and `value_of`.
- Fatal paths (`eprintln` + `exit(1)`) are modelled as the `Except.error` case
  of the resolver's result.
- The `Error` type of the Rust code is a boxed error built from `format!`
  strings; we model each distinct message shape as a constructor of
  `CliError` carrying exactly the data interpolated into that message.
-/

namespace TokenCli

/-- A fixed-size public account identifier, modelled as `Nat`; `0` stands for
the all-zero `Pubkey::default()`. -/
abbrev Pubkey := Nat

/-- A keypair; only its public address and (opaque) secret material matter to
this layer.  Mirrors `solana_sdk::signer::keypair::Keypair`. -/
structure Keypair where
  pubkey : Pubkey
  material : Nat
deriving DecidableEq, Repr

/-- A signing capability, as produced by the key-resolution service or a
keypair.  Mirrors `Box<dyn Signer>`: an opaque capability from which a public
address can be derived via `.pubkey()`. -/
structure Signer where
  pubkey : Pubkey
  material : Nat
deriving DecidableEq, Repr

/-- Mirrors `KeypairOrPath`: either an in-memory keypair (the `#[cfg(test)]`
variant) or a path-like reference resolved by the external key service. -/
inductive KeypairOrPath where
  | keypair (kp : Keypair)
  | path (p : String)
deriving DecidableEq, Repr

/-- Mirrors `MintInfo`: the result of mint resolution. -/
structure MintInfo where
  program_id : Pubkey
  address : Pubkey
  decimals : Nat
deriving DecidableEq, Repr

/-- Mirrors `SignerFromPathConfig` from `solana_clap_utils::keypair`. -/
structure SignerFromPathConfig where
  allow_null_signer : Bool
deriving DecidableEq, Repr

/-- The distinct error shapes produced by this layer (each constructor
corresponds to one `format!` message of the Rust code, carrying the values
interpolated into it) together with `rpcError` for errors propagated from the
RPC client by `?`. -/
inductive CliError where
  /-- A transport/client error from `rpc_client.get_account`, propagated
  by `?` (this is also how an absent account surfaces). -/
  | rpcError (msg : String)
  /-- "Could not find mint account \x7bmint\x7d". -/
  | mintNotFound (mint : Pubkey)
  /-- "Mint \x7bmint\x7d has decimals \x7bactual\x7d, not configured decimals
  \x7bexpected\x7d". -/
  | decimalsMismatch (mint : Pubkey) (actual : Nat) (expected : Nat)
  /-- "Account \x7baccount\x7d is owned by \x7bowner\x7d, not configured
  program id \x7bprogram\x7d". -/
  | ownershipMismatch (account : Pubkey) (owner : Pubkey) (program : Pubkey)
  /-- "Could not find token account \x7baccount\x7d". -/
  | tokenAccountNotFound (account : Pubkey)
  /-- "Source \x7baccount\x7d does not contain \x7bmint\x7d tokens". -/
  | mintMismatch (account : Pubkey) (mint : Pubkey)
deriving DecidableEq, Repr

/-- A raw on-chain account as returned by the RPC client: its owning program
and its stored bytes (bytes modelled opaquely as a `Nat` blob; only the
decoders inspect them). -/
structure RawAccount where
  owner : Pubkey
  data : Nat
deriving DecidableEq, Repr

/-- The decoded base state of a mint account (`Mint`); only `decimals` is
read by this layer. -/
structure MintState where
  decimals : Nat
deriving DecidableEq, Repr

/-- The decoded base state of a token account (`Account`); only `mint` is
read by this layer. -/
structure TokenAccountState where
  mint : Pubkey
deriving DecidableEq, Repr

/-- The two `ArgMatches` lookups this layer performs: `pubkey_of_signer`
(post-`.unwrap()`, so an `Option Pubkey`) and `value_of`. -/
structure ArgMatches where
  pubkeyOf : String → Option Pubkey
  valueOf : String → Option String

/-- The external collaborators, injected as one record.  Theorems quantify
over `Env`, so any dependence on it is visible in the statements. -/
structure Env where
  /-- `rpc_client.get_account` (async network fetch). -/
  getAccount : Pubkey → Except CliError RawAccount
  /-- `pubkey_from_path(matches, path, keypair_name, wallet_manager)`:
  external key resolution producing a bare address; may fail. -/
  pubkeyFromPath : ArgMatches → String → String → Except String Pubkey
  /-- `signer_from_path_with_config(matches, path, keypair_name,
  wallet_manager, config)`: external key resolution producing a signing
  capability; may fail. -/
  signerFromPath : ArgMatches → String → String → SignerFromPathConfig →
    Except String Signer
  /-- `StateWithExtensionsOwned::<Mint>::unpack`: external decoder; `none`
  when the bytes are not a valid mint account. -/
  unpackMint : Nat → Option MintState
  /-- `StateWithExtensionsOwned::<Account>::unpack`: external decoder;
  `none` when the bytes are not a valid token account. -/
  unpackAccount : Nat → Option TokenAccountState

/-- Mirrors `Config` (the pure data fields; the RPC handle and the wallet
manager live in `Env`, and `output_format` is irrelevant to this layer). -/
structure Config where
  websocket_url : String
  fee_payer : Pubkey
  default_keypair : KeypairOrPath
  nonce_account : Option Pubkey
  nonce_authority : Option Pubkey
  sign_only : Bool
  dump_transaction_message : Bool
  multisigner_pubkeys : List Pubkey
  program_id : Pubkey

/-- Modelled from the spec: `get_associated_token_address_with_program_id`
is code of this repository (the `spl-associated-token-account` crate) that is
not part of the provided source file.  The spec describes it as a pure,
deterministic, collision-resistant derivation of a canonical balance-account
address from the (owner, asset, owning program) triple, with no I/O and no
failure path; we model it as a concrete injective pairing of the three
inputs. -/
def get_associated_token_address_with_program_id
    (wallet_address : Pubkey) (token_mint_address : Pubkey)
    (token_program_id : Pubkey) : Pubkey :=
  Nat.pair wallet_address (Nat.pair token_mint_address token_program_id)

/-- Mirrors `Config::default_address`: for backwards compatibility, check the
generic "owner" flag before the cli-config default keypair. -/
def Config.default_address (c : Config) (margs : ArgMatches) (env : Env) :
    Except String Pubkey :=
  match margs.pubkeyOf "owner" with
  | some address => .ok address
  | none =>
    match c.default_keypair with
    | .keypair kp => .ok kp.pubkey
    | .path p => env.pubkeyFromPath margs p "default"

/-- Mirrors `Config::pubkey_or_default`: if `address_name` is not the literal
"owner" and an explicit address was provided under it, return that address;
otherwise fall back to `default_address` (whose failure is fatal, modelled as
the error case). -/
def Config.pubkey_or_default (c : Config) (arg_matches : ArgMatches)
    (address_name : String) (env : Env) : Except String Pubkey :=
  if address_name ≠ "owner" then
    match arg_matches.pubkeyOf address_name with
    | some address => .ok address
    | none => c.default_address arg_matches env
  else
    c.default_address arg_matches env

/-- Mirrors `Config::default_signer`: for backwards compatibility, check the
generic "owner" value before the cli-config default keypair; the in-memory
keypair is cloned through its byte serialization. -/
def Config.default_signer (c : Config) (margs : ArgMatches)
    (config : SignerFromPathConfig) (env : Env) : Except String Signer :=
  match margs.valueOf "owner" with
  | some owner_path => env.signerFromPath margs owner_path "owner" config
  | none =>
    match c.default_keypair with
    | .keypair kp => .ok { pubkey := kp.pubkey, material := kp.material }
    | .path p => env.signerFromPath margs p "default" config

/-- Mirrors `Config::signer_or_default`: null signers are allowed exactly
when `multisigner_pubkeys` is non-empty; if `authority_name` is not the
literal "owner" and a value was provided under it, load a signer from that
path; otherwise fall back to `default_signer`.  Failure is fatal (error
case); on success the signer is returned with its derived public address. -/
def Config.signer_or_default (c : Config) (arg_matches : ArgMatches)
    (authority_name : String) (env : Env) :
    Except String (Signer × Pubkey) :=
  let config : SignerFromPathConfig :=
    { allow_null_signer := !c.multisigner_pubkeys.isEmpty }
  let load_authority : Except String Signer :=
    if authority_name ≠ "owner" then
      match arg_matches.valueOf authority_name with
      | some keypair_path =>
        env.signerFromPath arg_matches keypair_path authority_name config
      | none => c.default_signer arg_matches config env
    else
      c.default_signer arg_matches config env
  match load_authority with
  | .error e => .error e
  | .ok authority => .ok (authority, authority.pubkey)

/-- Mirrors `Config::check_owner`. -/
def Config.check_owner (c : Config) (account : Pubkey) (owner : Pubkey) :
    Except CliError Unit :=
  if c.program_id ≠ owner then
    .error (.ownershipMismatch account owner c.program_id)
  else
    .ok ()

/-- Mirrors `Config::get_mint_info`. -/
def Config.get_mint_info (c : Config) (env : Env) (mint : Pubkey)
    (mint_decimals : Option Nat) : Except CliError MintInfo :=
  if c.sign_only then
    .ok { program_id := c.program_id, address := mint,
          decimals := mint_decimals.getD 0 }
  else
    match env.getAccount mint with
    | .error e => .error e
    | .ok account =>
      match c.check_owner mint account.owner with
      | .error e => .error e
      | .ok () =>
        match env.unpackMint account.data with
        | none => .error (.mintNotFound mint)
        | some mint_account =>
          match mint_decimals with
          | some decimals =>
            if decimals ≠ mint_account.decimals then
              .error (.decimalsMismatch mint mint_account.decimals decimals)
            else
              .ok { program_id := account.owner, address := mint,
                    decimals := mint_account.decimals }
          | none =>
            .ok { program_id := account.owner, address := mint,
                  decimals := mint_account.decimals }

/-- Mirrors `Config::check_account`. -/
def Config.check_account (c : Config) (env : Env) (token_account : Pubkey)
    (mint_address : Option Pubkey) : Except CliError Pubkey :=
  if !c.sign_only then
    match env.getAccount token_account with
    | .error e => .error e
    | .ok account =>
      match env.unpackAccount account.data with
      | none => .error (.tokenAccountNotFound token_account)
      | some source_account =>
        let source_mint := source_account.mint
        match mint_address with
        | some mint =>
          if source_mint ≠ mint then
            .error (.mintMismatch token_account mint)
          else
            match c.check_owner token_account account.owner with
            | .error e => .error e
            | .ok () => .ok source_mint
        | none =>
          match c.check_owner token_account account.owner with
          | .error e => .error e
          | .ok () => .ok source_mint
  else
    .ok (mint_address.getD 0)

/-- Mirrors `Config::associated_token_address_for_token_and_program`:
resolve the owner via `default_address` (fatal on failure) and derive the
associated token address. -/
def Config.associated_token_address_for_token_and_program (c : Config)
    (arg_matches : ArgMatches) (env : Env) (token : Pubkey)
    (program_id : Pubkey) : Except String Pubkey :=
  match c.default_address arg_matches env with
  | .error e => .error e
  | .ok owner =>
    .ok (get_associated_token_address_with_program_id owner token program_id)

/-! Concrete fixtures used by witnesses and counterexamples. -/

/-- A config with program id 7, path-based default identity, no multisigners,
online mode. -/
def cfgOnline : Config where
  websocket_url := "ws"
  fee_payer := 9
  default_keypair := .path "idpath"
  nonce_account := none
  nonce_authority := none
  sign_only := false
  dump_transaction_message := false
  multisigner_pubkeys := []
  program_id := 7

/-- Same as `cfgOnline` but in sign-only (offline) mode. -/
def cfgSignOnly : Config :=
  { cfgOnline with sign_only := true }

/-- Same as `cfgOnline` but with an in-memory default keypair whose address
is 1. -/
def cfgKeypair : Config :=
  { cfgOnline with default_keypair := .keypair ⟨1, 11⟩ }

/-- Argument set with both a generic "owner" override (address 1, value
"ownerpath") and a named "delegate" override (address 2, value "delegpath"). -/
def amBoth : ArgMatches where
  pubkeyOf := fun n =>
    if n = "owner" then some 1 else if n = "delegate" then some 2 else none
  valueOf := fun n =>
    if n = "owner" then some "ownerpath"
    else if n = "delegate" then some "delegpath" else none

/-- Argument set with only the generic "owner" override present. -/
def amOwnerOnly : ArgMatches where
  pubkeyOf := fun n => if n = "owner" then some 1 else none
  valueOf := fun n => if n = "owner" then some "ownerpath" else none

/-- Argument set with only the named "delegate" override present; in
particular no generic "owner" override. -/
def amDelegOnly : ArgMatches where
  pubkeyOf := fun n => if n = "delegate" then some 2 else none
  valueOf := fun n => if n = "delegate" then some "delegpath" else none

/-- Argument set with no values at all. -/
def amEmpty : ArgMatches where
  pubkeyOf := fun _ => none
  valueOf := fun _ => none

/-- An environment in which every external collaborator fails: a theorem
instantiated at `envFail` exhibits a run in which touching the network or the
identity source would have failed, so a successful result proves neither was
touched. -/
def envFail : Env where
  getAccount := fun _ => .error (.rpcError "network unreachable")
  pubkeyFromPath := fun _ _ _ => .error "identity source unavailable"
  signerFromPath := fun _ _ _ _ => .error "identity source unavailable"
  unpackMint := fun _ => none
  unpackAccount := fun _ => none

/-- An environment whose key-resolution service recognises the two fixture
paths: "ownerpath" resolves to the signer of address 1, "delegpath" to the
signer of address 2; the network side fails. -/
def envSig : Env where
  getAccount := fun _ => .error (.rpcError "network unreachable")
  pubkeyFromPath := fun _ _ _ => .error "identity source unavailable"
  signerFromPath := fun _ path _ _ =>
    if path = "ownerpath" then .ok ⟨1, 11⟩
    else if path = "delegpath" then .ok ⟨2, 22⟩
    else .error "unknown path"
  unpackMint := fun _ => none
  unpackAccount := fun _ => none

/-- A network fixture (program id 7 is the configured program):
- address 100: a well-formed mint account owned by 7, decimals 6;
- address 101: owned by 8 (wrong program), bytes not decodable at all;
- address 102: owned by 7 but bytes not decodable as a mint;
- address 200: a well-formed token account owned by 7 holding mint 100;
- address 201: a token account holding mint 100 but owned by 8;
- every other address is absent. -/
def envNet : Env where
  getAccount := fun a =>
    if a = 100 then .ok ⟨7, 10⟩
    else if a = 101 then .ok ⟨8, 11⟩
    else if a = 102 then .ok ⟨7, 12⟩
    else if a = 200 then .ok ⟨7, 20⟩
    else if a = 201 then .ok ⟨8, 21⟩
    else .error (.rpcError "account absent")
  pubkeyFromPath := fun _ _ _ => .error "identity source unavailable"
  signerFromPath := fun _ _ _ _ => .error "identity source unavailable"
  unpackMint := fun d => if d = 10 then some ⟨6⟩ else none
  unpackAccount := fun d =>
    if d = 20 then some ⟨100⟩ else if d = 21 then some ⟨100⟩ else none

/-! Theorems settling the claims. -/

deriving instance DecidableEq for Except

/-- C2: the address resolver with a named explicit override present (name
other than "owner", no generic owner override) returns exactly that override,
for every environment — in particular for one whose identity source and
network fail on any access, so no identity-source or network access occurs. -/
theorem c2_explicit_override_no_io (c : Config) (am : ArgMatches)
    (name : String) (a : Pubkey) (hname : name ≠ "owner")
    (howner : am.pubkeyOf "owner" = none) (ha : am.pubkeyOf name = some a) :
    ∀ env : Env, c.pubkey_or_default am name env = .ok a := by
  intro env
  simp [Config.pubkey_or_default, hname, ha]

/-- C2 witness: with only the "delegate" override (address 2) present,
resolution returns 2 even in the all-failing environment. -/
theorem c2_explicit_override_no_io_witness :
    cfgOnline.pubkey_or_default amDelegOnly "delegate" envFail = .ok 2 :=
  c2_explicit_override_no_io cfgOnline amDelegOnly "delegate" 2
    (by decide) rfl rfl envFail

/-- C3: in sign-only mode `get_mint_info` always succeeds, for every
environment (hence without any network access), returning the configured
program id, the requested mint address, and the caller-asserted decimals
(default 0). -/
theorem c3_sign_only_mint_info (c : Config) (hso : c.sign_only = true) :
    ∀ (env : Env) (mint : Pubkey) (d : Option Nat),
      c.get_mint_info env mint d =
        .ok { program_id := c.program_id, address := mint,
              decimals := d.getD 0 } := by
  intro env mint d
  simp [Config.get_mint_info, hso]

/-- C3 witness: offline config, all-failing environment; decimals default to
0 when unspecified and echo the supplied value otherwise. -/
theorem c3_sign_only_mint_info_witness :
    cfgSignOnly.get_mint_info envFail 100 none = .ok ⟨7, 100, 0⟩ ∧
    cfgSignOnly.get_mint_info envFail 100 (some 9) = .ok ⟨7, 100, 9⟩ :=
  ⟨c3_sign_only_mint_info cfgSignOnly rfl envFail 100 none,
   c3_sign_only_mint_info cfgSignOnly rfl envFail 100 (some 9)⟩

/-- C4: in sign-only mode `check_account` succeeds for every environment
(hence without any network access), returning the caller-supplied expected
mint when present and the all-zero default address otherwise. -/
theorem c4_sign_only_check_account (c : Config) (hso : c.sign_only = true) :
    ∀ (env : Env) (token_account : Pubkey) (ma : Option Pubkey),
      c.check_account env token_account ma = .ok (ma.getD 0) := by
  intro env token_account ma
  simp [Config.check_account, hso]

/-- C4 witness: offline config, all-failing environment; the supplied
expected mint 100 is echoed back, and absence yields the zero address. -/
theorem c4_sign_only_check_account_witness :
    cfgSignOnly.check_account envFail 200 (some 100) = .ok 100 ∧
    cfgSignOnly.check_account envFail 200 none = .ok 0 :=
  ⟨c4_sign_only_check_account cfgSignOnly rfl envFail 200 (some 100),
   c4_sign_only_check_account cfgSignOnly rfl envFail 200 none⟩

/-- C1 counterexample: with both the generic "owner" override (address 1,
path "ownerpath") and the named "delegate" override (address 2, path
"delegpath") present, both resolvers return the named override, not the owner
override — refuting the claim that the owner override is checked first and
returned. -/
theorem c1_counterexample :
    cfgOnline.pubkey_or_default amBoth "delegate" envSig = .ok 2 ∧
    cfgOnline.pubkey_or_default amBoth "delegate" envSig ≠ .ok 1 ∧
    cfgOnline.signer_or_default amBoth "delegate" envSig =
      .ok (⟨2, 22⟩, 2) ∧
    cfgOnline.signer_or_default amBoth "delegate" envSig ≠
      .ok (⟨1, 11⟩, 1) := by
  refine ⟨rfl, by decide, rfl, by decide⟩

/-- C1 amended: the precedence is named explicit override > generic "owner"
override > Identity Source default.  For a name other than "owner": a present
named override is returned by `pubkey_or_default` (and loaded from its path
by `signer_or_default`) regardless of any owner override; the owner override
is consulted only when the named override is absent. -/
theorem c1_amended_precedence (c : Config) (am : ArgMatches) (env : Env)
    (name : String) (hname : name ≠ "owner") :
    (∀ n, am.pubkeyOf name = some n →
      c.pubkey_or_default am name env = .ok n) ∧
    (∀ o, am.pubkeyOf name = none → am.pubkeyOf "owner" = some o →
      c.pubkey_or_default am name env = .ok o) ∧
    (∀ p, am.valueOf name = some p →
      c.signer_or_default am name env =
        (env.signerFromPath am p name
            ⟨!c.multisigner_pubkeys.isEmpty⟩).map (fun s => (s, s.pubkey))) ∧
    (∀ p, am.valueOf name = none → am.valueOf "owner" = some p →
      c.signer_or_default am name env =
        (env.signerFromPath am p "owner"
            ⟨!c.multisigner_pubkeys.isEmpty⟩).map (fun s => (s, s.pubkey))) := by
  refine ⟨?_, ?_, ?_, ?_⟩
  · intro n hn
    simp [Config.pubkey_or_default, hname, hn]
  · intro o hn ho
    simp [Config.pubkey_or_default, Config.default_address, hname, hn, ho]
  · intro p hp
    simp only [Config.signer_or_default, hname, if_true, ite_not, if_neg,
      ne_eq, not_false_eq_true, hp]
    cases env.signerFromPath am p name ⟨!c.multisigner_pubkeys.isEmpty⟩ <;>
      rfl
  · intro p hn hp
    simp only [Config.signer_or_default, Config.default_signer, hname,
      ite_not, ne_eq, not_false_eq_true, hn, hp]
    cases env.signerFromPath am p "owner" ⟨!c.multisigner_pubkeys.isEmpty⟩ <;>
      rfl

/-- C1 amended witness: with both overrides present the "delegate" override
wins in both resolvers; with only the owner override present it is used. -/
theorem c1_amended_precedence_witness :
    cfgOnline.pubkey_or_default amBoth "delegate" envSig = .ok 2 ∧
    cfgOnline.pubkey_or_default amOwnerOnly "delegate" envSig = .ok 1 ∧
    cfgOnline.signer_or_default amBoth "delegate" envSig =
      (envSig.signerFromPath amBoth "delegpath" "delegate"
          ⟨!cfgOnline.multisigner_pubkeys.isEmpty⟩).map (fun s => (s, s.pubkey)) ∧
    cfgOnline.signer_or_default amOwnerOnly "delegate" envSig =
      (envSig.signerFromPath amOwnerOnly "ownerpath" "owner"
          ⟨!cfgOnline.multisigner_pubkeys.isEmpty⟩).map (fun s => (s, s.pubkey)) :=
  ⟨(c1_amended_precedence cfgOnline amBoth envSig "delegate" (by decide)).1
      2 rfl,
   (c1_amended_precedence cfgOnline amOwnerOnly envSig "delegate"
      (by decide)).2.1 1 rfl rfl,
   (c1_amended_precedence cfgOnline amBoth envSig "delegate"
      (by decide)).2.2.1 "delegpath" rfl,
   (c1_amended_precedence cfgOnline amOwnerOnly envSig "delegate"
      (by decide)).2.2.2 "ownerpath" rfl rfl⟩

/-- C5 counterexample: address 101 holds an account owned by 8 (not the
configured program 7) whose bytes (blob 11) are not decodable as a mint, yet
`get_mint_info` fails with the ownership-mismatch error, not the not-found
error — refuting the claim that decode failure is reported as not-found
before any ownership verification. -/
theorem c5_counterexample :
    envNet.unpackMint 11 = none ∧
    cfgOnline.get_mint_info envNet 101 none =
      .error (.ownershipMismatch 101 8 7) ∧
    cfgOnline.get_mint_info envNet 101 none ≠
      .error (.mintNotFound 101) := by
  refine ⟨rfl, rfl, by decide⟩

/-- C5 amended: in non-sign-only mode the ownership check precedes decoding:
a fetched account whose owner differs from the configured program fails with
ownership-mismatch regardless of whether its bytes decode, and the not-found
(decode-failure) error is reported only for accounts that pass the ownership
check. -/
theorem c5_amended_ownership_before_decode (c : Config) (env : Env)
    (mint : Pubkey) (d : Option Nat) (acct : RawAccount)
    (hso : c.sign_only = false) (hacct : env.getAccount mint = .ok acct) :
    (acct.owner ≠ c.program_id →
      c.get_mint_info env mint d =
        .error (.ownershipMismatch mint acct.owner c.program_id)) ∧
    (acct.owner = c.program_id → env.unpackMint acct.data = none →
      c.get_mint_info env mint d = .error (.mintNotFound mint)) := by
  constructor
  · intro hown
    have hne : c.program_id ≠ acct.owner := fun h => hown h.symm
    simp [Config.get_mint_info, Config.check_owner, hso, hacct, hne]
  · intro hown hdec
    simp [Config.get_mint_info, Config.check_owner, hso, hacct, hown, hdec]

/-- C5 amended witness: account 101 (owner 8, undecodable) yields
ownership-mismatch; account 102 (owner 7, undecodable) yields not-found. -/
theorem c5_amended_ownership_before_decode_witness :
    cfgOnline.get_mint_info envNet 101 none =
      .error (.ownershipMismatch 101 8 7) ∧
    cfgOnline.get_mint_info envNet 102 none =
      .error (.mintNotFound 102) :=
  ⟨(c5_amended_ownership_before_decode cfgOnline envNet 101 none ⟨8, 11⟩
      rfl rfl).1 (by decide),
   (c5_amended_ownership_before_decode cfgOnline envNet 102 none ⟨7, 12⟩
      rfl rfl).2 rfl rfl⟩

/-- C6: in non-sign-only mode, once an account is fetched, passes the
ownership check, and decodes as a mint with decimals `d`, supplying expected
decimals `e ≠ d` fails with the decimals-mismatch error naming both `d` and
`e`, while supplying `e = d` succeeds and the returned decimals equal `d`. -/
theorem c6_decimals_check (c : Config) (env : Env) (mint : Pubkey)
    (acct : RawAccount) (ms : MintState)
    (hso : c.sign_only = false) (hacct : env.getAccount mint = .ok acct)
    (hown : acct.owner = c.program_id)
    (hdec : env.unpackMint acct.data = some ms) :
    (∀ e, e ≠ ms.decimals →
      c.get_mint_info env mint (some e) =
        .error (.decimalsMismatch mint ms.decimals e)) ∧
    c.get_mint_info env mint (some ms.decimals) =
      .ok { program_id := acct.owner, address := mint,
            decimals := ms.decimals } := by
  constructor
  · intro e he
    simp [Config.get_mint_info, Config.check_owner, hso, hacct, hown, hdec,
      he]
  · simp [Config.get_mint_info, Config.check_owner, hso, hacct, hown, hdec]

/-- C6 witness: the fixture mint at address 100 has decimals 6; asking for 9
fails naming 6 and 9, asking for 6 succeeds with decimals 6. -/
theorem c6_decimals_check_witness :
    cfgOnline.get_mint_info envNet 100 (some 9) =
      .error (.decimalsMismatch 100 6 9) ∧
    cfgOnline.get_mint_info envNet 100 (some 6) = .ok ⟨7, 100, 6⟩ :=
  ⟨(c6_decimals_check cfgOnline envNet 100 ⟨7, 10⟩ ⟨6⟩ rfl rfl rfl rfl).1
      9 (by decide),
   (c6_decimals_check cfgOnline envNet 100 ⟨7, 10⟩ ⟨6⟩ rfl rfl rfl rfl).2⟩

/-- C7: in non-sign-only mode every successful resolution by `get_mint_info`
or `check_account` implies the fetched account's owner equals the configured
program id (and the returned `MintInfo.program_id` equals it too); whenever
the owner differs and the checks preceding the ownership check pass,
resolution fails with the ownership-mismatch error carrying the account
address, the actual owner, and the configured program id.  The embedding is a
pure function of `(Config, Env)`, so no state is mutated on any path. -/
theorem c7_ownership_invariant (c : Config) (env : Env)
    (hso : c.sign_only = false) :
    (∀ mint d acct info, env.getAccount mint = .ok acct →
      c.get_mint_info env mint d = .ok info →
      acct.owner = c.program_id ∧ info.program_id = c.program_id) ∧
    (∀ ta ma acct m, env.getAccount ta = .ok acct →
      c.check_account env ta ma = .ok m →
      acct.owner = c.program_id) ∧
    (∀ mint d acct, env.getAccount mint = .ok acct →
      acct.owner ≠ c.program_id →
      c.get_mint_info env mint d =
        .error (.ownershipMismatch mint acct.owner c.program_id)) ∧
    (∀ ta acct st, env.getAccount ta = .ok acct →
      env.unpackAccount acct.data = some st →
      acct.owner ≠ c.program_id →
      c.check_account env ta (some st.mint) =
        .error (.ownershipMismatch ta acct.owner c.program_id) ∧
      c.check_account env ta none =
        .error (.ownershipMismatch ta acct.owner c.program_id)) := by
  refine ⟨?_, ?_, ?_, ?_⟩
  · intro mint d acct info hacct hok
    by_cases hp : c.program_id = acct.owner
    · refine ⟨hp.symm, ?_⟩
      simp only [Config.get_mint_info, hso, Bool.false_eq_true, if_false,
        hacct, Config.check_owner, hp, ne_eq, not_true_eq_false,
        ite_false] at hok
      cases hm : env.unpackMint acct.data with
      | none => rw [hm] at hok; cases hok
      | some ms =>
        rw [hm] at hok
        cases d with
        | none => cases hok; exact hp.symm
        | some e =>
          by_cases he : e = ms.decimals
          · simp only [he, ne_eq, not_true_eq_false, ite_false] at hok
            cases hok; exact hp.symm
          · simp [he] at hok
    · exfalso
      simp [Config.get_mint_info, hso, hacct, Config.check_owner, hp] at hok
  · intro ta ma acct m hacct hok
    by_cases hp : c.program_id = acct.owner
    · exact hp.symm
    · exfalso
      simp only [Config.check_account, hso, Bool.not_false, if_true,
        hacct] at hok
      cases hm : env.unpackAccount acct.data with
      | none => rw [hm] at hok; cases hok
      | some st =>
        rw [hm] at hok
        cases ma with
        | none => simp [Config.check_owner, hp] at hok
        | some mint =>
          by_cases hmm : st.mint = mint
          · simp [hmm, Config.check_owner, hp] at hok
          · simp [hmm, Config.check_owner, hp] at hok
  · intro mint d acct hacct hown
    have hne : c.program_id ≠ acct.owner := fun h => hown h.symm
    simp [Config.get_mint_info, hso, hacct, Config.check_owner, hne]
  · intro ta acct st hacct hdec hown
    have hne : c.program_id ≠ acct.owner := fun h => hown h.symm
    constructor <;>
      simp [Config.check_account, hso, hacct, hdec, Config.check_owner, hne]

/-- C7 witness: successful resolutions at the well-owned fixtures 100 and 200
give owners equal to the configured program 7; the wrongly-owned fixtures 101
and 201 fail with the ownership-mismatch error carrying address, actual owner
8, and configured program 7. -/
theorem c7_ownership_invariant_witness :
    (7 : Pubkey) = cfgOnline.program_id ∧
    cfgOnline.get_mint_info envNet 101 none =
      .error (.ownershipMismatch 101 8 7) ∧
    cfgOnline.check_account envNet 201 (some 100) =
      .error (.ownershipMismatch 201 8 7) ∧
    cfgOnline.check_account envNet 201 none =
      .error (.ownershipMismatch 201 8 7) :=
  ⟨(c7_ownership_invariant cfgOnline envNet rfl).2.1 200 (some 100)
      ⟨7, 20⟩ 100 rfl rfl,
   (c7_ownership_invariant cfgOnline envNet rfl).2.2.1 101 none ⟨8, 11⟩
      rfl (by decide),
   ((c7_ownership_invariant cfgOnline envNet rfl).2.2.2 201 ⟨8, 21⟩ ⟨100⟩
      rfl rfl (by decide)).1,
   ((c7_ownership_invariant cfgOnline envNet rfl).2.2.2 201 ⟨8, 21⟩ ⟨100⟩
      rfl rfl (by decide)).2⟩

/-- C8: in non-sign-only mode, for a token account that decodes with mint
`st.mint` and passes the ownership check, `check_account` with the matching
expected mint succeeds returning the decoded mint, and with any different
expected mint fails with the mint-mismatch error. -/
theorem c8_mint_match (c : Config) (env : Env) (ta : Pubkey)
    (acct : RawAccount) (st : TokenAccountState)
    (hso : c.sign_only = false) (hacct : env.getAccount ta = .ok acct)
    (hdec : env.unpackAccount acct.data = some st)
    (hown : acct.owner = c.program_id) :
    c.check_account env ta (some st.mint) = .ok st.mint ∧
    (∀ m2, m2 ≠ st.mint →
      c.check_account env ta (some m2) = .error (.mintMismatch ta m2)) := by
  constructor
  · simp [Config.check_account, hso, hacct, hdec, Config.check_owner, hown]
  · intro m2 hm2
    have hne : st.mint ≠ m2 := fun h => hm2 h.symm
    simp [Config.check_account, hso, hacct, hdec, hne]

/-- C8 witness: the fixture token account 200 decodes with mint 100:
expecting mint 100 succeeds returning 100; expecting mint 555 fails with the
mint-mismatch error. -/
theorem c8_mint_match_witness :
    cfgOnline.check_account envNet 200 (some 100) = .ok 100 ∧
    cfgOnline.check_account envNet 200 (some 555) =
      .error (.mintMismatch 200 555) :=
  ⟨(c8_mint_match cfgOnline envNet 200 ⟨7, 20⟩ ⟨100⟩ rfl rfl rfl rfl).1,
   (c8_mint_match cfgOnline envNet 200 ⟨7, 20⟩ ⟨100⟩ rfl rfl rfl rfl).2
      555 (by decide)⟩

/-- C9: the associated-address derivation is a pure deterministic function of
its three inputs: repeated calls agree, and
`associated_token_address_for_token_and_program` depends on its invocation
context only through the resolved owner — any two invocations (different
configs, argument sets, environments) whose owner resolution yields the same
owner produce the same derived address, namely the derivation applied to
(owner, token, program id). -/
theorem c9_derivation_deterministic (c₁ c₂ : Config) (am₁ am₂ : ArgMatches)
    (env₁ env₂ : Env) (token pid owner : Pubkey)
    (h₁ : c₁.default_address am₁ env₁ = .ok owner)
    (h₂ : c₂.default_address am₂ env₂ = .ok owner) :
    get_associated_token_address_with_program_id owner token pid =
      get_associated_token_address_with_program_id owner token pid ∧
    c₁.associated_token_address_for_token_and_program am₁ env₁ token pid =
      c₂.associated_token_address_for_token_and_program am₂ env₂ token pid ∧
    c₁.associated_token_address_for_token_and_program am₁ env₁ token pid =
      .ok (get_associated_token_address_with_program_id owner token pid) := by
  refine ⟨rfl, ?_, ?_⟩
  · simp [Config.associated_token_address_for_token_and_program, h₁, h₂]
  · simp [Config.associated_token_address_for_token_and_program, h₁]

/-- C9 witness: two entirely different invocation contexts — one resolving
the owner 1 from the "owner" flag with a path-based config, the other from an
in-memory keypair with empty arguments — derive the same address for the same
(owner, token, program) triple. -/
theorem c9_derivation_deterministic_witness :
    cfgOnline.associated_token_address_for_token_and_program amOwnerOnly
      envFail 100 7 =
    cfgKeypair.associated_token_address_for_token_and_program amEmpty
      envFail 100 7 :=
  (c9_derivation_deterministic cfgOnline cfgKeypair amOwnerOnly amEmpty
    envFail envFail 100 7 1 rfl rfl).2.1

/-- C10: invoking the resolvers with the literal name "owner" skips the
named-override branch entirely: `pubkey_or_default` returns exactly what
`default_address` returns, `signer_or_default` returns exactly what
`default_signer` returns (with its derived address), and either call behaves
identically to passing a name (other than "owner") for which no value is
present. -/
theorem c10_owner_name_skips_named_branch (c : Config) (am : ArgMatches)
    (env : Env) :
    c.pubkey_or_default am "owner" env = c.default_address am env ∧
    c.signer_or_default am "owner" env =
      (c.default_signer am ⟨!c.multisigner_pubkeys.isEmpty⟩ env).map
        (fun s => (s, s.pubkey)) ∧
    (∀ name, name ≠ "owner" → am.pubkeyOf name = none →
      c.pubkey_or_default am name env = c.pubkey_or_default am "owner" env) ∧
    (∀ name, name ≠ "owner" → am.valueOf name = none →
      c.signer_or_default am name env = c.signer_or_default am "owner" env) := by
  refine ⟨?_, ?_, ?_, ?_⟩
  · simp [Config.pubkey_or_default]
  · simp only [Config.signer_or_default, ne_eq, not_true_eq_false, ite_false]
    cases c.default_signer am ⟨!c.multisigner_pubkeys.isEmpty⟩ env <;> rfl
  · intro name hname hval
    simp [Config.pubkey_or_default, hname, hval]
  · intro name hname hval
    simp only [Config.signer_or_default, hname, hval, ne_eq,
      not_false_eq_true, ite_true, not_true_eq_false, ite_false]

/-- C10 witness: with the fixture arguments carrying an "owner" override,
`pubkey_or_default` under the name "owner" equals `default_address`,
`signer_or_default` under "owner" equals the mapped `default_signer`, and
both resolvers under the valueless name "balance" behave as under "owner". -/
theorem c10_owner_name_skips_named_branch_witness :
    cfgOnline.pubkey_or_default amBoth "owner" envSig =
      cfgOnline.default_address amBoth envSig ∧
    cfgOnline.signer_or_default amBoth "owner" envSig =
      (cfgOnline.default_signer amBoth
          ⟨!cfgOnline.multisigner_pubkeys.isEmpty⟩ envSig).map
        (fun s => (s, s.pubkey)) ∧
    cfgOnline.pubkey_or_default amBoth "balance" envSig =
      cfgOnline.pubkey_or_default amBoth "owner" envSig ∧
    cfgOnline.signer_or_default amBoth "balance" envSig =
      cfgOnline.signer_or_default amBoth "owner" envSig :=
  ⟨(c10_owner_name_skips_named_branch cfgOnline amBoth envSig).1,
   (c10_owner_name_skips_named_branch cfgOnline amBoth envSig).2.1,
   (c10_owner_name_skips_named_branch cfgOnline amBoth envSig).2.2.1
      "balance" (by decide) rfl,
   (c10_owner_name_skips_named_branch cfgOnline amBoth envSig).2.2.2
      "balance" (by decide) rfl⟩

end TokenCli
